import Mathlib

/-
  Shallow embedding of src/src/gps/NMEAGPS.cpp (NMEA GPS fix extraction).

  The sentence parser (TinyGPS++), the serial transport, the RTC module and
  the GPS base-class header are external collaborators / missing headers;
  their per-call outputs are modelled as input fields of a `Reading` record,
  and the fix state they declare is modelled from the spec's data model
  (section 3, FixState).  Machine integers are modelled as `Int` with an
  explicit 32-bit wrap where the C code performs `int32_t` arithmetic.
-/

namespace NMEA

/-- Wrap of a mathematical integer into the two's-complement `int32_t`
range `[-2^31, 2^31)`, mirroring 32-bit machine arithmetic. -/
def wrap32 (x : Int) : Int := (x + 2 ^ 31) % 2 ^ 32 - 2 ^ 31

/-- RawDegrees as produced by the sentence parser per coordinate.
Modelled from the spec: the parser's header is external; the spec's data
model gives {integerDegrees: int32, fractionalBillionths: int32,
isNegative: bool} (field names kept from the source's usage sites
`d.deg`, `d.billionths`, `d.negative`). -/
structure RawDegrees where
  deg : Int
  billionths : Int
  negative : Bool
deriving DecidableEq

/-- Embedding of `toDegInt` (NMEAGPS.cpp lines 11-18):
`int32_t r = d.deg * degMult + d.billionths / 100; if (d.negative) r *= -1;`
with `degMult = 10000000`.  C integer division truncates toward zero
(`Int.tdiv`), and the `int32_t` arithmetic wraps. -/
def toDegInt (d : RawDegrees) : Int :=
  let r := wrap32 (d.deg * 10000000 + Int.tdiv d.billionths 100)
  if d.negative then wrap32 (-r) else r

/-- Compile-time configuration shape of the translation unit:
`customFields` is true when `TINYGPS_OPTION_NO_CUSTOM_FIELDS` is NOT
defined (GSA fix-type and PDOP custom fields available), `altitudeHAE`
is true when `GPS_ALTITUDE_HAE` is defined. -/
structure Config where
  customFields : Bool
  altitudeHAE : Bool
deriving DecidableEq

/-- Embedding of `NMEAGPS::hasLock` (lines 185-197).  The source reads the
member fields `fixQual` and `fixType` (the latter only when the custom
fields are compiled in); here they are passed explicitly:
`if (fixQual >= 1 && fixQual <= 5) { if (fixType == 3 || fixType == 0) return true; }
return false;` with the inner test compiled out when custom fields are absent. -/
def hasLock (cfg : Config) (fixQual fixType : Int) : Bool :=
  if 1 ≤ fixQual ∧ fixQual ≤ 5 then
    if cfg.customFields then decide (fixType = 3) || decide (fixType = 0)
    else true
  else false

/-- Calendar structure mirroring C `struct tm` as filled by the source
(only the fields the source writes). -/
structure TmS where
  tm_sec : Int
  tm_min : Int
  tm_hour : Int
  tm_mday : Int
  tm_mon : Int
  tm_year : Int
  tm_isdst : Bool
deriving DecidableEq

/-- Snapshot of the external sentence parser's accessors at the time of one
call: each field is the value the corresponding TinyGPS++ accessor would
return.  `gsafixtypeVal` is `atoi(gsafixtype.value())` (zero when no data),
`gsapdopVal` is `TinyGPSPlus::parseDecimal(gsapdop.value())`, ages are the
`age()` results in milliseconds (TinyGPS++ returns a huge age when the
field was never valid, so validity is subsumed by the age checks). -/
structure Reading where
  fixQuality : Int
  gsafixtypeVal : Int
  locationAge : Nat
  gsafixtypeAge : Nat
  timeAge : Nat
  dateAge : Nat
  locationUpdated : Bool
  locLat : RawDegrees
  locLng : RawDegrees
  gsapdopVal : Int
  hdopValue : Nat
  geoidHeightMeters : Int
  altitudeMeters : Int
  timeValid : Bool
  dateValid : Bool
  timeSecond : Int
  timeMinute : Int
  timeHour : Int
  dateDay : Int
  dateMonth : Int
  dateYear : Int
  satellitesUpdated : Bool
  satellitesValue : Int
  courseUpdated : Bool
  courseValid : Bool
  courseValue : Nat
deriving DecidableEq

/-- The fix state mutated by the extraction routines.  Modelled from the
spec: the member declarations live in the GPS base-class header, which is
not part of the given sources; the spec's data model (section 3) lists the
fields, and the .cpp assigns exactly these members (`fixQual`, `fixType`,
`dop`, `latitude`, `longitude`, `geoidal_height`, `altitude`,
`pos_timestamp`, `heading`, and the satellite count via
`setNumSatellites`). -/
structure FixState where
  fixQual : Int
  fixType : Int
  latitude : Int
  longitude : Int
  dop : Int
  altitude : Int
  geoidal_height : Int
  pos_timestamp : Int
  numSatellites : Int
  heading : Int
deriving DecidableEq

/-- GPS solutions older than this are rejected (NMEAGPS.cpp line 8). -/
def GPS_SOL_EXPIRY_MS : Nat := 300

/-- Modelled from the spec: `setNumSatellites` is declared in the missing
GPS base-class header; per spec section 4.5 step 9 it commits the satellite
count into the fix state. -/
def setNumSatellites (st : FixState) (n : Int) : FixState :=
  { st with numSatellites := n }

/-! ### Exact model of the `1.41 * hdop` double computation

`dop = 1.41 * reader.hdop.value();` (line 132) multiplies the IEEE-754
binary64 constant nearest to 1.41 by the integer HDOP value (exact as a
double for any `int32` input) and stores the product into the integer `dop`
member, truncating toward zero.  The binary64 nearest 1.41 is
`m141 / 2 ^ 52`; `fl53` rounds the exact product's scaled numerator to 53
significant bits with round-to-nearest, ties-to-even, which is exactly the
IEEE rounding of the product. -/

/-- Scaled significand of the binary64 value nearest to 1.41:
the double constant `1.41` equals `6350075474592399 / 2 ^ 52`. -/
def m141 : Nat := 6350075474592399

/-- Round `n / d` to the nearest integer, ties to even. -/
def rne (n d : Nat) : Nat :=
  let q := n / d
  let r := n % d
  if 2 * r < d then q
  else if d < 2 * r then q + 1
  else if q % 2 = 0 then q else q + 1

/-- Number of significant bits of `n` (0 for 0), computed with explicit
fuel so that it reduces by kernel evaluation; 128 bits of fuel cover every
value the program can produce. -/
def bitLenAux : Nat → Nat → Nat
  | 0, _ => 0
  | fuel + 1, n => if n = 0 then 0 else bitLenAux fuel (n / 2) + 1

/-- Bit length with 128 bits of fuel. -/
def bitLen (n : Nat) : Nat := bitLenAux 128 n

/-- Round a natural number to 53 significant bits, nearest, ties to even:
the IEEE-754 binary64 rounding of `n / 2 ^ 52` scaled back by `2 ^ 52`. -/
def fl53 (n : Nat) : Nat :=
  let L := bitLen n
  if L ≤ 53 then n
  else rne n (2 ^ (L - 53)) * 2 ^ (L - 53)

/-- The committed DOP in the fallback branch: the binary64 product
`double(1.41) * h` truncated toward zero, computed exactly. -/
def dopFallback (h : Nat) : Nat := fl53 (m141 * h) / 2 ^ 52

/-! ### Location/Fix extraction -/

/-- Step 1 of `lookForLocation` (lines 87-92): capture `fixQual` from the
GGA quality accessor unconditionally, and `fixType` from the GSA custom
field when custom fields are compiled in. -/
def step1 (cfg : Config) (rd : Reading) (st : FixState) : FixState :=
  { st with fixQual := rd.fixQuality,
            fixType := if cfg.customFields then rd.gsafixtypeVal else st.fixType }

/-- The staleness conjunction of lines 101-106: location, (custom) GSA
fix-type, time and date ages all below `GPS_SOL_EXPIRY_MS`. -/
def freshEnough (cfg : Config) (rd : Reading) : Bool :=
  decide (rd.locationAge < GPS_SOL_EXPIRY_MS) &&
  (!cfg.customFields || decide (rd.gsafixtypeAge < GPS_SOL_EXPIRY_MS)) &&
  decide (rd.timeAge < GPS_SOL_EXPIRY_MS) &&
  decide (rd.dateAge < GPS_SOL_EXPIRY_MS)

/-- The DOP value computed at lines 127-133: the parsed GSA PDOP when
custom fields are available, otherwise the `1.41 * hdop` fallback. -/
def computeDop (cfg : Config) (rd : Reading) : Int :=
  if cfg.customFields then rd.gsapdopVal else (dopFallback rd.hdopValue : Int)

/-- The calendar structure composed at lines 59-66 and again at 150-157:
month converted from 1-12 to 0-11, year to years-since-1900, no DST. -/
def mkTm (rd : Reading) : TmS :=
  { tm_sec := rd.timeSecond, tm_min := rd.timeMinute, tm_hour := rd.timeHour,
    tm_mday := rd.dateDay, tm_mon := rd.dateMonth - 1,
    tm_year := rd.dateYear - 1900, tm_isdst := false }

/-- The commit block of lines 139-172: latitude/longitude, geoidal height,
altitude (plus geoidal height in HAE mode), positional timestamp via the
external `mktime`, optional satellite count, optional sanity-checked
heading (`course * 1e3` is exact in binary64 for values below 36000). -/
def commitFix (cfg : Config) (mktime : TmS → Int) (rd : Reading)
    (st : FixState) : FixState :=
  let st1 := { st with latitude := toDegInt rd.locLat,
                       longitude := toDegInt rd.locLng,
                       geoidal_height := rd.geoidHeightMeters,
                       altitude := if cfg.altitudeHAE
                                   then rd.altitudeMeters + rd.geoidHeightMeters
                                   else rd.altitudeMeters,
                       pos_timestamp := mktime (mkTm rd) }
  let st2 := if rd.satellitesUpdated then setNumSatellites st1 rd.satellitesValue
             else st1
  if rd.courseUpdated && rd.courseValid then
    if rd.courseValue < 36000 then
      { st2 with heading := (rd.courseValue : Int) * 1000 }
    else st2
  else st2

/-- Embedding of `NMEAGPS::lookForLocation` (lines 82-182): the sequential
gate (lock, staleness, novelty, zero-latitude, zero-DOP) followed by the
commit block.  The external `mktime` is passed as a function; the result is
the returned boolean paired with the fix state after the call.  Note the
DOP member is assigned (line 128/132) before the `dop == 0` test. -/
def lookForLocation (cfg : Config) (mktime : TmS → Int) (rd : Reading)
    (st : FixState) : Bool × FixState :=
  let st1 := step1 cfg rd st
  if hasLock cfg st1.fixQual st1.fixType = false then (false, st1)
  else if freshEnough cfg rd = false then (false, st1)
  else if rd.locationUpdated = false then (false, st1)
  else if toDegInt rd.locLat = 0 then (false, st1)
  else
    let st2 := { st1 with dop := computeDop cfg rd }
    if computeDop cfg rd = 0 then (false, st2)
    else (true, commitFix cfg mktime rd st2)

/-! ### Time extraction -/

/-- Modelled from the spec: the RTC module's quality marker enumeration is
declared in the missing RTC header; the spec names the
"derived from satellite time source" tag, the other constructors stand for
the remaining tags. -/
inductive RTCQuality where
  | RTCQualityNone
  | RTCQualityFromNet
  | RTCQualityGPS
deriving DecidableEq

/-- Embedding of `NMEAGPS::lookForTime` (lines 50-74): when both the time
and date fields are valid, compose the calendar structure and forward it
once to `perhapsSetRTC` with the GPS quality tag; the second component is
the list of clock-sync calls the invocation performs. -/
def lookForTime (rd : Reading) : Bool × List (RTCQuality × TmS) :=
  if rd.timeValid && rd.dateValid then
    (true, [(RTCQuality.RTCQualityGPS, mkTm rd)])
  else (false, [])

/-! ### Byte ingestion -/

/-- Embedding of `NMEAGPS::whileIdle` (lines 200-212): drain the bytes
currently available from the transport (modelled as the input list), feed
each to `reader.encode`, OR the results.  `encode` is the external parser's
step function on its opaque state; the result pairs the returned flag with
the final parser state. -/
def whileIdle {σ : Type} (encode : σ → Int → σ × Bool) :
    σ → List Int → Bool × σ
  | s, [] => (false, s)
  | s, c :: rest =>
    let r := encode s c
    let rest' := whileIdle encode r.1 rest
    (r.2 || rest'.1, rest'.2)

/-- Specification-side helper for the ingestion claim: the per-byte
results of feeding the list sequentially to the parser. -/
def encodeResults {σ : Type} (encode : σ → Int → σ × Bool) :
    σ → List Int → List Bool
  | _, [] => []
  | s, c :: rest => (encode s c).2 :: encodeResults encode (encode s c).1 rest

/-! ### Concrete scenario inputs -/

/-- Trivial model of the external libc `mktime`. -/
def mkZero : TmS → Int := fun _ => 0

/-- The spec's end-to-end scenario reading: quality 1, 3D type, fresh
location (37.520825 deg N, 122.309162 deg W), fresh time/date, HDOP value
150, parsed PDOP field 150 when custom fields are on. -/
def rdBase : Reading :=
  { fixQuality := 1, gsafixtypeVal := 3, locationAge := 0, gsafixtypeAge := 0,
    timeAge := 0, dateAge := 0, locationUpdated := true,
    locLat := ⟨37, 520825000, false⟩, locLng := ⟨122, 309162000, true⟩,
    gsapdopVal := 150, hdopValue := 150, geoidHeightMeters := 0,
    altitudeMeters := 158, timeValid := true, dateValid := true,
    timeSecond := 0, timeMinute := 0, timeHour := 0,
    dateDay := 1, dateMonth := 1, dateYear := 2024,
    satellitesUpdated := false, satellitesValue := 0,
    courseUpdated := false, courseValid := false, courseValue := 0 }

/-- The scenario reading with a converted longitude of exactly zero. -/
def rdLngZero : Reading := { rdBase with locLng := ⟨0, 0, false⟩ }

/-- The scenario reading with a parsed PDOP of zero. -/
def rdDopZero : Reading := { rdBase with gsapdopVal := 0 }

/-- The scenario reading with no GPS lock (quality 0). -/
def rdNoLock : Reading := { rdBase with fixQuality := 0 }

/-- The scenario reading with an all-zero (bogus) latitude. -/
def rdLatZero : Reading := { rdBase with locLat := ⟨0, 0, false⟩ }

/-- The scenario reading with a 400 ms old location solution. -/
def rdStale : Reading := { rdBase with locationAge := 400 }

/-- The scenario reading with a valid updated course of 35999. -/
def rdCourse359 : Reading :=
  { rdBase with courseUpdated := true, courseValid := true, courseValue := 35999 }

/-- The scenario reading with a valid updated but bogus course of 36000. -/
def rdCourse360 : Reading :=
  { rdBase with courseUpdated := true, courseValid := true, courseValue := 36000 }

/-- A previously committed fix state with nonzero fields, to observe frame
effects of rejected calls. -/
def stPrev : FixState :=
  { fixQual := 1, fixType := 3, latitude := 111, longitude := 222,
    dop := 212, altitude := 158, geoidal_height := 7, pos_timestamp := 99,
    numSatellites := 8, heading := 777 }

/-! ## Theorems -/

/-- Values within the int32 range are unchanged by the 32-bit wrap. -/
theorem wrap32_eq (x : Int) (h1 : -2147483648 ≤ x) (h2 : x < 2147483648) :
    wrap32 x = x := by
  unfold wrap32
  have e1 : (2 : Int) ^ 31 = 2147483648 := by norm_num
  have e2 : (2 : Int) ^ 32 = 4294967296 := by norm_num
  rw [e1, e2]
  have h : (x + 2147483648) % 4294967296 = x + 2147483648 :=
    Int.emod_eq_of_lt (by omega) (by omega)
  omega

/-- C3: Lock Determination returns true iff fixQuality is in [1,5] and,
when the secondary fix-type source is enabled, additionally fixType is 3
or 0; concretely hasLock(0,3) = false, hasLock(1,3) = true, hasLock(1,2) =
false with the secondary source enabled, hasLock(1,0) = true, and with the
secondary source disabled the result depends only on the quality; the
embedding is a pure function, so it has no side effects on the fix state. -/
theorem hasLock_spec :
    (∀ cfg : Config, ∀ q t : Int,
      (hasLock cfg q t = true ↔
        1 ≤ q ∧ q ≤ 5 ∧ (cfg.customFields = false ∨ t = 3 ∨ t = 0))) ∧
    hasLock ⟨true, false⟩ 0 3 = false ∧
    hasLock ⟨true, false⟩ 1 3 = true ∧
    hasLock ⟨true, false⟩ 1 2 = false ∧
    hasLock ⟨true, false⟩ 1 0 = true ∧
    (∀ a : Bool, ∀ q t t' : Int,
      hasLock ⟨false, a⟩ q t = hasLock ⟨false, a⟩ q t') := by
  refine ⟨?_, by decide, by decide, by decide, by decide, ?_⟩
  · intro cfg q t
    rcases cfg with ⟨cf, ah⟩
    cases cf
    · simp [hasLock]
    · simp [hasLock]
      tauto
  · intro a q t t'
    rfl

/-- C4 counterexample: the claim quantifies over every RawDegreeValue, but
the source computes in `int32_t`; at integerDegrees = 1000 (fraction 0,
nonnegative) the product 10^10 wraps to 1410065408, not the claimed
10^10. -/
theorem toDegInt_overflow_cex :
    toDegInt ⟨1000, 0, false⟩ = 1410065408 ∧
    (1000 : Int) * 10000000 + Int.tdiv 0 100 = 10000000000 ∧
    toDegInt ⟨1000, 0, false⟩ ≠ 1000 * 10000000 + Int.tdiv 0 100 := by
  refine ⟨by decide, by decide, by decide⟩

/-- C4 (amended): for every RawDegreeValue whose exact result
integerDegrees * 10000000 + fractionalBillionths / 100 (truncating
division) lies strictly inside the int32 range — in particular every valid
degree value, magnitude at most 180 degrees — Degree Conversion returns
that quantity, negated when isNegative is set; outside that range the
int32 arithmetic wraps. -/
theorem toDegInt_exact (d : RawDegrees)
    (h1 : -2147483648 < d.deg * 10000000 + Int.tdiv d.billionths 100)
    (h2 : d.deg * 10000000 + Int.tdiv d.billionths 100 < 2147483648) :
    toDegInt d = if d.negative
                 then -(d.deg * 10000000 + Int.tdiv d.billionths 100)
                 else d.deg * 10000000 + Int.tdiv d.billionths 100 := by
  have he : wrap32 (d.deg * 10000000 + Int.tdiv d.billionths 100)
      = d.deg * 10000000 + Int.tdiv d.billionths 100 :=
    wrap32_eq (d.deg * 10000000 + Int.tdiv d.billionths 100) (by omega) h2
  have he2 : wrap32 (-(d.deg * 10000000 + Int.tdiv d.billionths 100))
      = -(d.deg * 10000000 + Int.tdiv d.billionths 100) :=
    wrap32_eq (-(d.deg * 10000000 + Int.tdiv d.billionths 100))
      (by omega) (by omega)
  simp only [toDegInt, he, he2]

/-- C4 witness: the end-to-end scenario latitude 37.520825 deg N. -/
theorem toDegInt_exact_witness :
    (-2147483648 < (37 : Int) * 10000000 + Int.tdiv 520825000 100) ∧
    ((37 : Int) * 10000000 + Int.tdiv 520825000 100 < 2147483648) ∧
    toDegInt ⟨37, 520825000, false⟩ = 375208250 := by
  refine ⟨by decide, by decide, ?_⟩
  rw [toDegInt_exact ⟨37, 520825000, false⟩ (by decide) (by decide)]
  decide

/-- C10: the bogus-fix guard checks only latitude — a concrete reading
whose converted longitude is exactly zero but whose converted latitude is
nonzero, passing every other gate, is accepted and commits longitude 0. -/
theorem lookForLocation_zero_lng_accept :
    toDegInt rdLngZero.locLng = 0 ∧
    toDegInt rdLngZero.locLat ≠ 0 ∧
    (lookForLocation ⟨false, false⟩ mkZero rdLngZero stPrev).1 = true ∧
    (lookForLocation ⟨false, false⟩ mkZero rdLngZero stPrev).2.longitude = 0 := by
  refine ⟨by decide, by decide, by decide, by decide⟩

/-- C1 counterexample: a cycle that passes lock, staleness, novelty and the
zero-latitude gate but reads a parsed PDOP of zero (custom-field
configuration) is rejected at the incomplete-DOP check, yet the stored DOP
has been overwritten with 0: line 128 assigns the member before line 136
tests it, so the previously committed value 212 does not survive. -/
theorem lookForLocation_dop_reject_mutates_cex :
    stPrev.dop = 212 ∧
    (lookForLocation ⟨true, false⟩ mkZero rdDopZero stPrev).1 = false ∧
    (lookForLocation ⟨true, false⟩ mkZero rdDopZero stPrev).2.dop = 0 ∧
    (lookForLocation ⟨true, false⟩ mkZero rdDopZero stPrev).2.dop ≠ stPrev.dop := by
  refine ⟨by decide, by decide, by decide, by decide⟩

/-- C1 (amended): every rejected call of Location/Fix Extraction mutates no
field of the fix state other than fixQual, fixType and dop; rejections
before the DOP step leave dop unchanged, and a cycle rejected at the
incomplete-DOP check has already overwritten dop with the computed value,
which on that path is 0 — so on every rejection the resulting dop is either
the previous value or 0. -/
theorem lookForLocation_reject_frame (cfg : Config) (mktime : TmS → Int)
    (rd : Reading) (st : FixState)
    (h : (lookForLocation cfg mktime rd st).1 = false) :
    (lookForLocation cfg mktime rd st).2.latitude = st.latitude ∧
    (lookForLocation cfg mktime rd st).2.longitude = st.longitude ∧
    (lookForLocation cfg mktime rd st).2.altitude = st.altitude ∧
    (lookForLocation cfg mktime rd st).2.geoidal_height = st.geoidal_height ∧
    (lookForLocation cfg mktime rd st).2.pos_timestamp = st.pos_timestamp ∧
    (lookForLocation cfg mktime rd st).2.numSatellites = st.numSatellites ∧
    (lookForLocation cfg mktime rd st).2.heading = st.heading ∧
    ((lookForLocation cfg mktime rd st).2.dop = st.dop ∨
     (lookForLocation cfg mktime rd st).2.dop = 0) := by
  simp only [lookForLocation] at h ⊢
  split_ifs at h ⊢ <;> simp_all [step1]

/-- C1 witness: a no-lock cycle (quality 0) is rejected and leaves every
committed field of the previous state intact. -/
theorem lookForLocation_reject_frame_witness :
    (lookForLocation ⟨false, false⟩ mkZero rdNoLock stPrev).1 = false ∧
    ((lookForLocation ⟨false, false⟩ mkZero rdNoLock stPrev).2.latitude = stPrev.latitude ∧
     (lookForLocation ⟨false, false⟩ mkZero rdNoLock stPrev).2.longitude = stPrev.longitude ∧
     (lookForLocation ⟨false, false⟩ mkZero rdNoLock stPrev).2.altitude = stPrev.altitude ∧
     (lookForLocation ⟨false, false⟩ mkZero rdNoLock stPrev).2.geoidal_height = stPrev.geoidal_height ∧
     (lookForLocation ⟨false, false⟩ mkZero rdNoLock stPrev).2.pos_timestamp = stPrev.pos_timestamp ∧
     (lookForLocation ⟨false, false⟩ mkZero rdNoLock stPrev).2.numSatellites = stPrev.numSatellites ∧
     (lookForLocation ⟨false, false⟩ mkZero rdNoLock stPrev).2.heading = stPrev.heading ∧
     ((lookForLocation ⟨false, false⟩ mkZero rdNoLock stPrev).2.dop = stPrev.dop ∨
      (lookForLocation ⟨false, false⟩ mkZero rdNoLock stPrev).2.dop = 0)) :=
  ⟨by decide,
   lookForLocation_reject_frame ⟨false, false⟩ mkZero rdNoLock stPrev (by decide)⟩

/-- C5: every reading whose converted latitude is exactly zero is rejected
(whatever gate fires first), and all previously committed fields —
latitude, longitude, dop, altitude, geoidal height, timestamp, satellite
count, heading — are unchanged by the call; the zero-latitude gate sits
before the DOP assignment, so even dop survives. -/
theorem lookForLocation_zero_lat (cfg : Config) (mktime : TmS → Int)
    (rd : Reading) (st : FixState) (h : toDegInt rd.locLat = 0) :
    (lookForLocation cfg mktime rd st).1 = false ∧
    (lookForLocation cfg mktime rd st).2.latitude = st.latitude ∧
    (lookForLocation cfg mktime rd st).2.longitude = st.longitude ∧
    (lookForLocation cfg mktime rd st).2.dop = st.dop ∧
    (lookForLocation cfg mktime rd st).2.altitude = st.altitude ∧
    (lookForLocation cfg mktime rd st).2.geoidal_height = st.geoidal_height ∧
    (lookForLocation cfg mktime rd st).2.pos_timestamp = st.pos_timestamp ∧
    (lookForLocation cfg mktime rd st).2.numSatellites = st.numSatellites ∧
    (lookForLocation cfg mktime rd st).2.heading = st.heading := by
  simp only [lookForLocation]
  split_ifs <;> simp_all [step1]

/-- C5 witness: an all-zero bogus position with every other gate passing is
rejected and the previous fix survives whole. -/
theorem lookForLocation_zero_lat_witness :
    toDegInt rdLatZero.locLat = 0 ∧
    ((lookForLocation ⟨false, false⟩ mkZero rdLatZero stPrev).1 = false ∧
     (lookForLocation ⟨false, false⟩ mkZero rdLatZero stPrev).2.latitude = stPrev.latitude ∧
     (lookForLocation ⟨false, false⟩ mkZero rdLatZero stPrev).2.longitude = stPrev.longitude ∧
     (lookForLocation ⟨false, false⟩ mkZero rdLatZero stPrev).2.dop = stPrev.dop ∧
     (lookForLocation ⟨false, false⟩ mkZero rdLatZero stPrev).2.altitude = stPrev.altitude ∧
     (lookForLocation ⟨false, false⟩ mkZero rdLatZero stPrev).2.geoidal_height = stPrev.geoidal_height ∧
     (lookForLocation ⟨false, false⟩ mkZero rdLatZero stPrev).2.pos_timestamp = stPrev.pos_timestamp ∧
     (lookForLocation ⟨false, false⟩ mkZero rdLatZero stPrev).2.numSatellites = stPrev.numSatellites ∧
     (lookForLocation ⟨false, false⟩ mkZero rdLatZero stPrev).2.heading = stPrev.heading) :=
  ⟨by decide,
   lookForLocation_zero_lat ⟨false, false⟩ mkZero rdLatZero stPrev (by decide)⟩

/-- C6: when the location age, time age, date age, or (in the custom-field
configuration) the fix-type age reaches the 300 ms staleness window, the
cycle is rejected — regardless of later field validity — and latitude,
longitude, dop and the positional timestamp are not committed. -/
theorem lookForLocation_stale_reject (cfg : Config) (mktime : TmS → Int)
    (rd : Reading) (st : FixState)
    (h : GPS_SOL_EXPIRY_MS ≤ rd.locationAge ∨ GPS_SOL_EXPIRY_MS ≤ rd.timeAge ∨
         GPS_SOL_EXPIRY_MS ≤ rd.dateAge ∨
         (cfg.customFields = true ∧ GPS_SOL_EXPIRY_MS ≤ rd.gsafixtypeAge)) :
    (lookForLocation cfg mktime rd st).1 = false ∧
    (lookForLocation cfg mktime rd st).2.latitude = st.latitude ∧
    (lookForLocation cfg mktime rd st).2.longitude = st.longitude ∧
    (lookForLocation cfg mktime rd st).2.dop = st.dop ∧
    (lookForLocation cfg mktime rd st).2.pos_timestamp = st.pos_timestamp := by
  have hF : freshEnough cfg rd = false := by
    rcases cfg with ⟨cf, ah⟩
    cases cf <;> simp_all [freshEnough, GPS_SOL_EXPIRY_MS] <;> omega
  simp only [lookForLocation]
  split_ifs <;> simp_all [step1]

/-- C6 witness: quality 1, 3D type, everything valid but the location
reading is 400 ms old — rejected, nothing committed. -/
theorem lookForLocation_stale_reject_witness :
    (GPS_SOL_EXPIRY_MS ≤ rdStale.locationAge ∨ GPS_SOL_EXPIRY_MS ≤ rdStale.timeAge ∨
     GPS_SOL_EXPIRY_MS ≤ rdStale.dateAge ∨
     (Config.customFields ⟨true, false⟩ = true ∧ GPS_SOL_EXPIRY_MS ≤ rdStale.gsafixtypeAge)) ∧
    ((lookForLocation ⟨true, false⟩ mkZero rdStale stPrev).1 = false ∧
     (lookForLocation ⟨true, false⟩ mkZero rdStale stPrev).2.latitude = stPrev.latitude ∧
     (lookForLocation ⟨true, false⟩ mkZero rdStale stPrev).2.longitude = stPrev.longitude ∧
     (lookForLocation ⟨true, false⟩ mkZero rdStale stPrev).2.dop = stPrev.dop ∧
     (lookForLocation ⟨true, false⟩ mkZero rdStale stPrev).2.pos_timestamp = stPrev.pos_timestamp) :=
  ⟨by decide,
   lookForLocation_stale_reject ⟨true, false⟩ mkZero rdStale stPrev (by decide)⟩

/-- C7: in an otherwise-accepted pass with the course field updated and
valid, a raw course of 35999 hundredths of a degree commits heading
35999 * 1000 in degrees-times-1e-5 units, while a raw course of 36000 or
more leaves the stored heading unmodified — and in both cases the overall
fix is still accepted. -/
theorem lookForLocation_course (cfg : Config) (mktime : TmS → Int)
    (rd : Reading) (st : FixState)
    (hL : hasLock cfg (step1 cfg rd st).fixQual (step1 cfg rd st).fixType = true)
    (hF : freshEnough cfg rd = true)
    (hU : rd.locationUpdated = true)
    (hLat : toDegInt rd.locLat ≠ 0)
    (hDop : computeDop cfg rd ≠ 0)
    (hCu : rd.courseUpdated = true) (hCv : rd.courseValid = true) :
    (lookForLocation cfg mktime rd st).1 = true ∧
    (rd.courseValue = 35999 →
      (lookForLocation cfg mktime rd st).2.heading = 35999000) ∧
    (36000 ≤ rd.courseValue →
      (lookForLocation cfg mktime rd st).2.heading = st.heading) := by
  refine ⟨by simp [lookForLocation, hL, hF, hU, hLat, hDop], ?_, ?_⟩
  · intro h359
    simp [lookForLocation, hL, hF, hU, hLat, hDop, commitFix, setNumSatellites,
      hCu, hCv, h359, apply_ite FixState.heading]
  · intro h36k
    have hnot : ¬ rd.courseValue < 36000 := by omega
    simp [lookForLocation, hL, hF, hU, hLat, hDop, commitFix, setNumSatellites,
      hCu, hCv, hnot, apply_ite FixState.heading]
    simp [step1]

/-- C7 witness: two otherwise-accepted scenarios, course 35999 and course
36000; the first commits heading 35999000, the second keeps the previous
heading 777, and both return true. -/
theorem lookForLocation_course_witness :
    (hasLock ⟨false, false⟩ (step1 ⟨false, false⟩ rdCourse359 stPrev).fixQual
        (step1 ⟨false, false⟩ rdCourse359 stPrev).fixType = true ∧
     freshEnough ⟨false, false⟩ rdCourse359 = true ∧
     rdCourse359.locationUpdated = true ∧
     toDegInt rdCourse359.locLat ≠ 0 ∧
     computeDop ⟨false, false⟩ rdCourse359 ≠ 0 ∧
     rdCourse359.courseUpdated = true ∧ rdCourse359.courseValid = true) ∧
    ((lookForLocation ⟨false, false⟩ mkZero rdCourse359 stPrev).1 = true ∧
     (rdCourse359.courseValue = 35999 →
       (lookForLocation ⟨false, false⟩ mkZero rdCourse359 stPrev).2.heading = 35999000) ∧
     (36000 ≤ rdCourse359.courseValue →
       (lookForLocation ⟨false, false⟩ mkZero rdCourse359 stPrev).2.heading = stPrev.heading)) ∧
    ((lookForLocation ⟨false, false⟩ mkZero rdCourse360 stPrev).1 = true ∧
     (rdCourse360.courseValue = 35999 →
       (lookForLocation ⟨false, false⟩ mkZero rdCourse360 stPrev).2.heading = 35999000) ∧
     (36000 ≤ rdCourse360.courseValue →
       (lookForLocation ⟨false, false⟩ mkZero rdCourse360 stPrev).2.heading = stPrev.heading)) :=
  ⟨⟨by decide, by decide, by decide, by decide, by decide, by decide, by decide⟩,
   lookForLocation_course ⟨false, false⟩ mkZero rdCourse359 stPrev (by decide)
     (by decide) (by decide) (by decide) (by decide) (by decide) (by decide),
   lookForLocation_course ⟨false, false⟩ mkZero rdCourse360 stPrev (by decide)
     (by decide) (by decide) (by decide) (by decide) (by decide) (by decide)⟩

/-- C2 counterexample: the end-to-end scenario (HDOP value 150, secondary
PDOP unavailable) is accepted but commits dop 211, not the claimed
round(1.41 x 150) = 212: the binary64 product double(1.41) * 150 equals
exactly 211.5 and the store into the integer DOP member truncates toward
zero. -/
theorem lookForLocation_dop150_cex :
    rdBase.hdopValue = 150 ∧
    (lookForLocation ⟨false, false⟩ mkZero rdBase stPrev).1 = true ∧
    (lookForLocation ⟨false, false⟩ mkZero rdBase stPrev).2.dop = 211 ∧
    (lookForLocation ⟨false, false⟩ mkZero rdBase stPrev).2.dop ≠ 212 := by
  refine ⟨by decide, by decide, by decide, by decide⟩

/-- C2 (amended): when the secondary precision field is unavailable, the
committed DOP is the binary64 product double(1.41) * hdopValue truncated
toward zero (dopFallback); for hdop value 150 passing all other gates the
committed dop is 211 (the product is exactly 211.5); the fix is rejected
iff the computed dop is exactly zero. -/
theorem lookForLocation_dop_fallback (cfg : Config) (mktime : TmS → Int)
    (rd : Reading) (st : FixState)
    (hc : cfg.customFields = false)
    (hL : hasLock cfg (step1 cfg rd st).fixQual (step1 cfg rd st).fixType = true)
    (hF : freshEnough cfg rd = true)
    (hU : rd.locationUpdated = true)
    (hLat : toDegInt rd.locLat ≠ 0)
    (_hB : rd.hdopValue < 2147483648) :
    ((lookForLocation cfg mktime rd st).1 = true ↔ dopFallback rd.hdopValue ≠ 0) ∧
    (lookForLocation cfg mktime rd st).2.dop = (dopFallback rd.hdopValue : Int) ∧
    (rd.hdopValue = 150 → (lookForLocation cfg mktime rd st).2.dop = 211) := by
  have hcd : computeDop cfg rd = (dopFallback rd.hdopValue : Int) := by
    simp [computeDop, hc]
  have hd150 : dopFallback 150 = 211 := by decide
  by_cases hz : dopFallback rd.hdopValue = 0
  · have hz0 : computeDop cfg rd = 0 := by simp [hcd, hz]
    refine ⟨?_, ?_, ?_⟩
    · simp [lookForLocation, hL, hF, hU, hLat, hz0, hz]
    · simp [lookForLocation, hL, hF, hU, hLat, hz0, hcd, hz]
    · intro h150
      rw [h150, hd150] at hz
      exact absurd hz (by decide)
  · have hz0 : computeDop cfg rd ≠ 0 := by
      rw [hcd]
      exact_mod_cast hz
    refine ⟨?_, ?_, ?_⟩
    · simp [lookForLocation, hL, hF, hU, hLat, hz0, hz]
    · simp [lookForLocation, hL, hF, hU, hLat, hz0, hcd, hz, commitFix,
        setNumSatellites, apply_ite FixState.dop]
    · intro h150
      simp [lookForLocation, hL, hF, hU, hLat, hz0, hcd, hz, commitFix,
        setNumSatellites, apply_ite FixState.dop, h150, hd150]

/-- C2 witness: the spec's end-to-end scenario, custom fields off, HDOP
value 150 — accepted with committed dop 211. -/
theorem lookForLocation_dop_fallback_witness :
    (Config.customFields ⟨false, false⟩ = false ∧
     hasLock ⟨false, false⟩ (step1 ⟨false, false⟩ rdBase stPrev).fixQual
        (step1 ⟨false, false⟩ rdBase stPrev).fixType = true ∧
     freshEnough ⟨false, false⟩ rdBase = true ∧
     rdBase.locationUpdated = true ∧
     toDegInt rdBase.locLat ≠ 0 ∧
     rdBase.hdopValue < 2147483648) ∧
    (((lookForLocation ⟨false, false⟩ mkZero rdBase stPrev).1 = true ↔
        dopFallback rdBase.hdopValue ≠ 0) ∧
     (lookForLocation ⟨false, false⟩ mkZero rdBase stPrev).2.dop =
        (dopFallback rdBase.hdopValue : Int) ∧
     (rdBase.hdopValue = 150 →
        (lookForLocation ⟨false, false⟩ mkZero rdBase stPrev).2.dop = 211)) :=
  ⟨⟨by decide, by decide, by decide, by decide, by decide, by decide⟩,
   lookForLocation_dop_fallback ⟨false, false⟩ mkZero rdBase stPrev (by decide)
     (by decide) (by decide) (by decide) (by decide) (by decide)⟩

/-- C8: Time Extraction returns true iff both the time-of-day and date
fields report valid — no staleness gate on their ages, which it never
reads — and on success it forwards exactly one calendar structure, tagged
as derived from the satellite time source, with the month converted from
1-12 to 0-11, the year converted to years-since-1900, and the
daylight-saving flag cleared; on failure it forwards nothing. -/
theorem lookForTime_spec (rd : Reading) :
    ((lookForTime rd).1 = true ↔ rd.timeValid = true ∧ rd.dateValid = true) ∧
    ((lookForTime rd).2 = if (lookForTime rd).1 = true
        then [(RTCQuality.RTCQualityGPS, mkTm rd)] else []) ∧
    (mkTm rd).tm_mon = rd.dateMonth - 1 ∧
    (mkTm rd).tm_year = rd.dateYear - 1900 ∧
    (mkTm rd).tm_isdst = false := by
  cases ht : rd.timeValid <;> cases hd : rd.dateValid <;>
    simp [lookForTime, mkTm, ht, hd]

/-- C9: Field Ingestion drains every byte available from the transport in
one call — the final parser state is the left fold of the encode step over
the whole byte list — and returns true iff at least one fed byte produced
a newly-valid parsed field (the OR of the per-byte encode results); on an
empty byte list it returns false. -/
theorem whileIdle_spec {σ : Type} (encode : σ → Int → σ × Bool)
    (s : σ) (bs : List Int) :
    whileIdle encode s bs =
      ((encodeResults encode s bs).any id,
       bs.foldl (fun a c => (encode a c).1) s) := by
  induction bs generalizing s with
  | nil => simp [whileIdle, encodeResults]
  | cons c rest ih => simp [whileIdle, encodeResults, ih]

end NMEA

